import Mathlib

/-!
Verification of the AQI cache core of `map.py` (AirPolutionMap).

The embedding models JSON documents as an inductive `JValue`, the in-memory
cache (a Python dict keyed by coordinate strings) as an association list with
unique-key update semantics, the remote WAQI call as an abstract outcome
(network error, JSON decode error, or a parsed body), and durable storage as
an abstract file state holding a decoded document.  Uncaught Python
exceptions are modelled with `Except`.  Time is modelled as integer epoch
seconds; the float arithmetic of `time.time()` is irrelevant to the ordering
logic being verified.
-/

namespace AQIMap

/-- JSON-like values as produced by `json.load` / `resp.json()`.  Objects are
association lists of string keys (Python dicts preserve insertion order and
hold unique keys). -/
inductive JValue where
  | null : JValue
  | bool (b : Bool) : JValue
  | num (n : Int) : JValue
  | str (s : String) : JValue
  | arr (elems : List JValue) : JValue
  | obj (fields : List (String × JValue)) : JValue

/-- Look up a key in a dict's field list (`d[k]` / `k in d`). -/
def lookupField : List (String × JValue) → String → Option JValue
  | [], _ => none
  | (k, v) :: rest, key => if k = key then some v else lookupField rest key

/-- Python dict assignment `d[key] = v`: replaces the value in place when the
key is present (insertion order kept), appends otherwise. -/
def setField : List (String × JValue) → String → JValue → List (String × JValue)
  | [], key, v => [(key, v)]
  | (k, w) :: rest, key, v =>
      if k = key then (k, v) :: rest else (k, w) :: setField rest key v

/-- `isinstance(entry, dict)`. -/
def JValue.isDict : JValue → Bool
  | .obj _ => true
  | _ => false

/-- Python `k in entry` for a value that may or may not be a dict (only ever
evaluated after `isinstance(entry, dict)` in the source). -/
def JValue.hasKey : JValue → String → Bool
  | .obj fields, k => (lookupField fields k).isSome
  | _, _ => false

/-- `entry.get(k, dflt)`; total here, but in the source only reached on
values already known to be dicts. -/
def JValue.dictGet : JValue → String → JValue → JValue
  | .obj fields, k, dflt => (lookupField fields k).getD dflt
  | _, _, dflt => dflt

/-- Python numeric coercion for the subtraction `now - entry_ts`: ints (and
bools, which are ints in Python) are numeric; anything else raises
`TypeError`. -/
def JValue.asPyNum : JValue → Option Int
  | .num n => some n
  | .bool b => some (if b then 1 else 0)
  | _ => none

/-- Uncaught Python exceptions that the modelled code can raise. -/
inductive PyExn where
  | typeError : PyExn
  | attributeError : PyExn
  | keyError : PyExn
  | osError : PyExn
deriving DecidableEq, Repr

/-- Outcome of the single `requests.get` + `resp.raise_for_status()` +
`resp.json()` sequence: a `requests.RequestException` (network error,
timeout, HTTP error status), a `ValueError` from JSON decoding, or a parsed
JSON body. -/
inductive FetchOutcome where
  | requestError : FetchOutcome
  | jsonError : FetchOutcome
  | body (result : JValue) : FetchOutcome

/-- `CACHE_TTL_SECONDS = 4 * 3600` (map.py line 40). -/
def CACHE_TTL_SECONDS : Int := 4 * 3600

/-- `key = f"{lat},{lon}"`; the coordinates enter the model already rendered
to strings, since only the key string matters to the cache logic. -/
def mkKey (lat lon : String) : String := lat ++ "," ++ lon

/-- Line 260: `isinstance(entry, dict) and "timestamp" in entry and "data" in
entry` — the current-format test; its negation selects the legacy branch. -/
def isCurrentEntry (entry : JValue) : Bool :=
  entry.isDict && entry.hasKey "timestamp" && entry.hasKey "data"

/-- Result of one `fetch_aqi_for_location` call: the returned value (or an
uncaught exception), the cache afterwards, and how many times the remote API
was contacted. -/
structure LookupResult where
  ret : Except PyExn JValue
  cache : List (String × JValue)
  fetchCalls : Nat

/-- Python `value == "ok"` on the result of `result.get("status")`: true
exactly when the key was present with the string value "ok". -/
def isOkStatus : Option JValue → Bool
  | some (.str s) => s == "ok"
  | _ => false

/-- Lines 276-294: the refetch section reached on a miss or an expired entry.
On success with status "ok" and a "data" field the record is stored and the
data returned; a `RequestException` or `ValueError` is caught and `{}`
returned; calling `.get` on a parsed body that is not a dict raises an
uncaught `AttributeError`. -/
def refetch (key : String) (cache : List (String × JValue)) (now : Int)
    (outcome : FetchOutcome) : LookupResult :=
  match outcome with
  | .requestError => { ret := .ok (.obj []), cache := cache, fetchCalls := 1 }
  | .jsonError => { ret := .ok (.obj []), cache := cache, fetchCalls := 1 }
  | .body (.obj fields) =>
      if isOkStatus (lookupField fields "status") && (lookupField fields "data").isSome then
        match lookupField fields "data" with
        | some data =>
            { ret := .ok data,
              cache := setField cache key (.obj [("timestamp", .num now), ("data", data)]),
              fetchCalls := 1 }
        | none => { ret := .error .keyError, cache := cache, fetchCalls := 1 }
      else
        { ret := .ok (.obj []), cache := cache, fetchCalls := 1 }
  | .body _ => { ret := .error .attributeError, cache := cache, fetchCalls := 1 }

/-- Lines 253-294, `fetch_aqi_for_location`: fresh current entries are served
from the cache; legacy entries are rewrapped with timestamp `now` and
returned without fetching; expired or missing entries go to `refetch`.  A
current entry whose timestamp is not numeric makes `now - entry_ts` raise
`TypeError` (uncaught).  `token` rides along as in the source signature; it
only feeds the request URL. -/
def fetch_aqi_for_location (lat lon token : String)
    (cache : List (String × JValue)) (now : Int) (outcome : FetchOutcome) :
    LookupResult :=
  let key := mkKey lat lon
  match lookupField cache key with
  | none => refetch key cache now outcome
  | some entry =>
      if isCurrentEntry entry = false then
        { ret := .ok entry,
          cache := setField cache key (.obj [("timestamp", .num now), ("data", entry)]),
          fetchCalls := 0 }
      else
        match (entry.dictGet "timestamp" (.num 0)).asPyNum with
        | none => { ret := .error .typeError, cache := cache, fetchCalls := 0 }
        | some entry_ts =>
            if now - entry_ts < CACHE_TTL_SECONDS then
              match entry with
              | .obj entryFields =>
                  match lookupField entryFields "data" with
                  | some d => { ret := .ok d, cache := cache, fetchCalls := 0 }
                  | none => { ret := .error .keyError, cache := cache, fetchCalls := 0 }
              | _ => { ret := .error .typeError, cache := cache, fetchCalls := 0 }
            else
              refetch key cache now outcome

/-- State of the durable cache file as seen through `os.path.exists`, `open`
and `json.load`: absent; present but raising `PermissionError` on open;
present but failing JSON decoding; present and raising some other `OSError`
on open (e.g. `IsADirectoryError`, which `load_cache` does not catch); or
present and decoding to a document. -/
inductive FileState where
  | missing : FileState
  | unreadable : FileState
  | undecodable : FileState
  | otherIOError : FileState
  | content (doc : JValue) : FileState

/-- Lines 111-140, `load_cache`: a missing file yields a warning and an empty
cache; `json.JSONDecodeError` (a `ValueError`) and `PermissionError` are
caught and yield an empty cache; any other `OSError` from `open` is not
caught and propagates; otherwise the decoded document is returned as the
cache. -/
def load_cache : FileState → Except PyExn JValue
  | .missing => .ok (.obj [])
  | .unreadable => .ok (.obj [])
  | .undecodable => .ok (.obj [])
  | .otherIOError => .error .osError
  | .content doc => .ok doc

/-- Lines 143-159, `save_cache`: serializes the whole cache dict to the file,
overwriting it; any exception is caught and only logged.  `writeOk` abstracts
whether the directory creation, open and `json.dump` all succeed; on failure
the file is left in whatever state the partial write produced, modelled here
as the prior state. -/
def save_cache (cache : List (String × JValue)) (writeOk : Bool)
    (fs : FileState) : FileState :=
  if writeOk then .content (.obj cache) else fs

/-- Abstraction of the body of `main`'s `try` block (lines 506-527):
`read_locations` plus `generate_map` either complete normally leaving the
cache in some final state, return early when no locations were read, or are
aborted by a `KeyboardInterrupt` or another exception while the cache holds
some intermediate state. -/
inductive BodyOutcome where
  | completes (finalCache : List (String × JValue)) : BodyOutcome
  | earlyReturn : BodyOutcome
  | keyboardInterrupt (cacheWhenRaised : List (String × JValue)) : BodyOutcome
  | otherException (cacheWhenRaised : List (String × JValue)) : BodyOutcome

/-- How a Python block finishes: normal completion (falling off the end or a
`return`), or an exception, which is a `KeyboardInterrupt` or not. -/
inductive BlockExit where
  | normal : BlockExit
  | exn (isKeyboardInterrupt : Bool) : BlockExit

/-- Mutable state visible to `main` after the cache is loaded: the in-memory
cache, the durable file, and the cache snapshots passed to `save_cache`. -/
structure MainState where
  cache : List (String × JValue)
  file : FileState
  saves : List (List (String × JValue))

/-- The `try` body of `main` as a state transformer, driven by the abstract
`BodyOutcome`. -/
def runTryBody (ev : BodyOutcome) (s : MainState) : MainState × BlockExit :=
  match ev with
  | .completes c => ({ s with cache := c }, .normal)
  | .earlyReturn => (s, .normal)
  | .keyboardInterrupt c => ({ s with cache := c }, .exn true)
  | .otherException c => ({ s with cache := c }, .exn false)

/-- The `finally` block (lines 529-532): one `save_cache(aqi_cache,
args.cache_file)` call on the current cache, plus a log line.  `save_cache`
catches its own exceptions, so the block itself never raises. -/
def runFinallyBlock (writeOk : Bool) (s : MainState) : MainState :=
  { s with
      file := save_cache s.cache writeOk s.file,
      saves := s.saves ++ [s.cache] }

/-- Python semantics of `try: body except KeyboardInterrupt: handler
finally: fin`: on normal completion the finally block runs; on a
`KeyboardInterrupt` the handler runs, then the finally block, and nothing
propagates; on any other exception the finally block runs and the exception
then propagates (second component `true`). -/
def tryExceptKIFinally (body : MainState → MainState × BlockExit)
    (handler : MainState → MainState) (fin : MainState → MainState)
    (s : MainState) : MainState × Bool :=
  match body s with
  | (s1, .normal) => (fin s1, false)
  | (s1, .exn true) => (fin (handler s1), false)
  | (s1, .exn false) => (fin s1, true)

/-- Lines 506-532 of `main`: run the processing body under
`try`/`except KeyboardInterrupt`/`finally` with the cache-saving finally
block; the interrupt handler only logs. -/
def main_run (c0 : List (String × JValue)) (fs : FileState)
    (ev : BodyOutcome) (writeOk : Bool) : MainState × Bool :=
  tryExceptKIFinally (runTryBody ev) (fun s => s) (runFinallyBlock writeOk)
    { cache := c0, file := fs, saves := [] }

/-- The in-memory cache at the moment `main`'s processing terminates, for
each way the body can end; used to state what the final save must contain. -/
def cacheAtTermination (c0 : List (String × JValue)) (ev : BodyOutcome) :
    List (String × JValue) :=
  match ev with
  | .completes c => c
  | .earlyReturn => c0
  | .keyboardInterrupt c => c
  | .otherException c => c

/-- The spec's description of the conditions under which a lookup reaches the
refetch section: the key is absent, or it holds a current-format record whose
numeric timestamp is at least `CACHE_TTL_SECONDS` old. -/
def reachesRefetch (cache : List (String × JValue)) (key : String)
    (now : Int) : Prop :=
  lookupField cache key = none ∨
  ∃ fields ts, lookupField cache key = some (.obj fields) ∧
    lookupField fields "timestamp" = some (.num ts) ∧
    (lookupField fields "data").isSome = true ∧
    CACHE_TTL_SECONDS ≤ now - ts

/-- Failure outcomes of a remote call in the sense of the spec, restricted to
bodies the code can actually handle: a `RequestException`, a JSON decode
error, or a parsed JSON object without status "ok" or without a "data"
field. -/
inductive FailedOutcome : FetchOutcome → Prop where
  | requestError : FailedOutcome .requestError
  | jsonError : FailedOutcome .jsonError
  | badBody (fields : List (String × JValue))
      (h : (isOkStatus (lookupField fields "status") &&
            (lookupField fields "data").isSome) = false) :
      FailedOutcome (.body (.obj fields))

theorem lookupField_setField_self (c : List (String × JValue)) (k : String)
    (v : JValue) : lookupField (setField c k v) k = some v := by
  induction c with
  | nil => simp [setField, lookupField]
  | cons hd tl ih =>
      obtain ⟨k0, v0⟩ := hd
      by_cases h : k0 = k
      · simp [setField, lookupField, h]
      · simp [setField, lookupField, h, ih]

theorem lookupField_setField_ne (c : List (String × JValue)) (k k' : String)
    (v : JValue) (h : k' ≠ k) :
    lookupField (setField c k v) k' = lookupField c k' := by
  have hne : ¬ (k = k') := fun hh => h hh.symm
  induction c with
  | nil => simp [setField, lookupField, hne]
  | cons hd tl ih =>
      obtain ⟨k0, v0⟩ := hd
      by_cases h0 : k0 = k
      · subst h0
        simp [setField, lookupField, hne]
      · simp [setField, lookupField, h0, ih]

theorem refetch_fetchCalls (key : String) (cache : List (String × JValue))
    (now : Int) (outcome : FetchOutcome) :
    (refetch key cache now outcome).fetchCalls = 1 := by
  cases outcome with
  | requestError => rfl
  | jsonError => rfl
  | body result =>
      cases result <;> simp only [refetch] <;> split <;> try rfl
      split <;> rfl

theorem refetch_failure (key : String) (cache : List (String × JValue))
    (now : Int) (outcome : FetchOutcome) (hf : FailedOutcome outcome) :
    refetch key cache now outcome =
      { ret := .ok (.obj []), cache := cache, fetchCalls := 1 } := by
  cases hf with
  | requestError => rfl
  | jsonError => rfl
  | badBody fields h => simp [refetch, h]

theorem refetch_frame (key : String) (cache : List (String × JValue))
    (now : Int) (outcome : FetchOutcome) (k : String) (hk : k ≠ key) :
    lookupField (refetch key cache now outcome).cache k = lookupField cache k := by
  cases outcome with
  | requestError => rfl
  | jsonError => rfl
  | body result =>
      cases result <;> simp only [refetch] <;> try rfl
      split
      · split
        · exact lookupField_setField_ne cache key k _ hk
        · rfl
      · rfl

theorem fetch_eq_refetch (lat lon token : String)
    (cache : List (String × JValue)) (now : Int) (outcome : FetchOutcome)
    (hre : reachesRefetch cache (mkKey lat lon) now) :
    fetch_aqi_for_location lat lon token cache now outcome =
      refetch (mkKey lat lon) cache now outcome := by
  rcases hre with hmiss | ⟨fields, ts, hent, hts, hd, hstale⟩
  · simp only [fetch_aqi_for_location]
    rw [hmiss]
  · simp only [fetch_aqi_for_location]
    rw [hent]
    have hcur : isCurrentEntry (.obj fields) = true := by
      simp [isCurrentEntry, JValue.isDict, JValue.hasKey, hts, hd]
    simp only [hcur]
    simp only [JValue.dictGet, hts, Option.getD_some, JValue.asPyNum]
    have : ¬ (now - ts < CACHE_TTL_SECONDS) := by omega
    simp [this]

theorem fetch_fresh_hit (lat lon token : String)
    (cache : List (String × JValue)) (now ts : Int) (outcome : FetchOutcome)
    (fields : List (String × JValue)) (d : JValue)
    (hent : lookupField cache (mkKey lat lon) = some (.obj fields))
    (hts : lookupField fields "timestamp" = some (.num ts))
    (hd : lookupField fields "data" = some d)
    (hfresh : now - ts < CACHE_TTL_SECONDS) :
    fetch_aqi_for_location lat lon token cache now outcome =
      { ret := .ok d, cache := cache, fetchCalls := 0 } := by
  simp only [fetch_aqi_for_location]
  rw [hent]
  have hcur : isCurrentEntry (.obj fields) = true := by
    simp [isCurrentEntry, JValue.isDict, JValue.hasKey, hts, hd]
  simp only [hcur]
  simp only [JValue.dictGet, hts, Option.getD_some, JValue.asPyNum]
  simp [hfresh, hd]

/-- C1: a key holding a current-format record (a dict with both "timestamp"
and "data") whose age `now - timestamp` is strictly below the TTL is served
from the cache: the stored payload is returned exactly as stored, no remote
call is made, and the cache is left untouched. -/
theorem C1_fresh_hit_served_from_cache (lat lon token : String)
    (cache : List (String × JValue)) (now ts : Int) (outcome : FetchOutcome)
    (fields : List (String × JValue)) (d : JValue)
    (hent : lookupField cache (mkKey lat lon) = some (.obj fields))
    (hts : lookupField fields "timestamp" = some (.num ts))
    (hd : lookupField fields "data" = some d)
    (hfresh : now - ts < CACHE_TTL_SECONDS) :
    fetch_aqi_for_location lat lon token cache now outcome =
      { ret := .ok d, cache := cache, fetchCalls := 0 } :=
  fetch_fresh_hit lat lon token cache now ts outcome fields d hent hts hd hfresh

/-- C1 witness: a concrete fresh hit. -/
theorem C1_fresh_hit_served_from_cache_witness :
    fetch_aqi_for_location "1.0" "2.0" "tok"
      [("1.0,2.0", .obj [("timestamp", .num 100), ("data", .str "X")])]
      200 .requestError =
      { ret := .ok (.str "X"),
        cache := [("1.0,2.0", .obj [("timestamp", .num 100), ("data", .str "X")])],
        fetchCalls := 0 } :=
  C1_fresh_hit_served_from_cache "1.0" "2.0" "tok"
    [("1.0,2.0", .obj [("timestamp", .num 100), ("data", .str "X")])]
    200 100 .requestError [("timestamp", .num 100), ("data", .str "X")]
    (.str "X") rfl rfl rfl (by decide)

/-- C2: a legacy entry (anything failing the current-format test) is
returned unchanged with no remote call, the cache entry is replaced by a
current record with timestamp `now` and the legacy value as its data, and an
immediately repeated lookup neither mutates the cache nor contacts the
network. -/
theorem C2_legacy_migration_idempotent (lat lon token : String)
    (cache : List (String × JValue)) (now : Int)
    (outcome outcome2 : FetchOutcome) (entry : JValue)
    (hent : lookupField cache (mkKey lat lon) = some entry)
    (hleg : isCurrentEntry entry = false) :
    fetch_aqi_for_location lat lon token cache now outcome =
      { ret := .ok entry,
        cache := setField cache (mkKey lat lon)
          (.obj [("timestamp", .num now), ("data", entry)]),
        fetchCalls := 0 } ∧
    (fetch_aqi_for_location lat lon token
        (setField cache (mkKey lat lon)
          (.obj [("timestamp", .num now), ("data", entry)])) now outcome2).cache =
      setField cache (mkKey lat lon)
        (.obj [("timestamp", .num now), ("data", entry)]) ∧
    (fetch_aqi_for_location lat lon token
        (setField cache (mkKey lat lon)
          (.obj [("timestamp", .num now), ("data", entry)])) now outcome2).fetchCalls = 0 := by
  have hfirst : fetch_aqi_for_location lat lon token cache now outcome =
      { ret := .ok entry,
        cache := setField cache (mkKey lat lon)
          (.obj [("timestamp", .num now), ("data", entry)]),
        fetchCalls := 0 } := by
    simp only [fetch_aqi_for_location]
    rw [hent]
    simp [hleg]
  have hsecond : fetch_aqi_for_location lat lon token
      (setField cache (mkKey lat lon)
        (.obj [("timestamp", .num now), ("data", entry)])) now outcome2 =
      { ret := .ok entry,
        cache := setField cache (mkKey lat lon)
          (.obj [("timestamp", .num now), ("data", entry)]),
        fetchCalls := 0 } := by
    have hself := lookupField_setField_self cache (mkKey lat lon)
      (.obj [("timestamp", .num now), ("data", entry)])
    apply fetch_fresh_hit lat lon token _ now now outcome2
      [("timestamp", .num now), ("data", entry)] entry hself
    · simp [lookupField]
    · simp [lookupField]
    · simp [CACHE_TTL_SECONDS]
  exact ⟨hfirst, hsecond ▸ rfl, hsecond ▸ rfl⟩

/-- C2 witness: migrating a concrete legacy entry (a bare payload dict). -/
theorem C2_legacy_migration_idempotent_witness :
    fetch_aqi_for_location "1.0" "2.0" "tok" [("1.0,2.0", .num 5)] 200
        .requestError =
      { ret := .ok (.num 5),
        cache := setField [("1.0,2.0", .num 5)] (mkKey "1.0" "2.0")
          (.obj [("timestamp", .num 200), ("data", .num 5)]),
        fetchCalls := 0 } ∧
    (fetch_aqi_for_location "1.0" "2.0" "tok"
        (setField [("1.0,2.0", .num 5)] (mkKey "1.0" "2.0")
          (.obj [("timestamp", .num 200), ("data", .num 5)])) 200 .jsonError).cache =
      setField [("1.0,2.0", .num 5)] (mkKey "1.0" "2.0")
        (.obj [("timestamp", .num 200), ("data", .num 5)]) ∧
    (fetch_aqi_for_location "1.0" "2.0" "tok"
        (setField [("1.0,2.0", .num 5)] (mkKey "1.0" "2.0")
          (.obj [("timestamp", .num 200), ("data", .num 5)])) 200 .jsonError).fetchCalls = 0 := by
  exact C2_legacy_migration_idempotent "1.0" "2.0" "tok" [("1.0,2.0", .num 5)]
    200 .requestError .jsonError (.num 5) rfl rfl

/-- C3: whenever a lookup finds no entry, or finds a current-format record
whose age is at least the TTL, exactly one remote fetch attempt is made —
whatever the outcome of that attempt — and the TTL used is the fixed
constant 14400 seconds (the core's interface takes no TTL argument). -/
theorem C3_stale_or_miss_fetches_once (lat lon token : String)
    (cache : List (String × JValue)) (now : Int) (outcome : FetchOutcome)
    (hre : reachesRefetch cache (mkKey lat lon) now) :
    (fetch_aqi_for_location lat lon token cache now outcome).fetchCalls = 1 ∧
    CACHE_TTL_SECONDS = 14400 := by
  rw [fetch_eq_refetch lat lon token cache now outcome hre]
  exact ⟨refetch_fetchCalls _ cache now outcome, rfl⟩

/-- C3 witness: a stale concrete entry (age exactly 18000 seconds). -/
theorem C3_stale_or_miss_fetches_once_witness :
    (fetch_aqi_for_location "48.7" "19.5" "tok"
        [("48.7,19.5", .obj [("timestamp", .num 0), ("data", .obj [])])]
        18000 .requestError).fetchCalls = 1 ∧
    CACHE_TTL_SECONDS = 14400 :=
  C3_stale_or_miss_fetches_once "48.7" "19.5" "tok"
    [("48.7,19.5", .obj [("timestamp", .num 0), ("data", .obj [])])]
    18000 .requestError
    (Or.inr ⟨[("timestamp", .num 0), ("data", .obj [])], 0, rfl, rfl, rfl,
      by decide⟩)

/-- C4 counterexample: a remote body that is valid JSON but not an object —
here the empty JSON array - is a response without status "ok", yet the
lookup does not return the empty payload: `result.get("status")` raises an
uncaught `AttributeError`, contradicting the claim that no exception ever
propagates from a failed refetch. -/
theorem C4_counterexample_nonobject_body_raises :
    (fetch_aqi_for_location "48.7" "19.5" "tok" [] 0 (.body (.arr []))).ret =
      .error .attributeError ∧
    (fetch_aqi_for_location "48.7" "19.5" "tok" [] 0 (.body (.arr []))).ret ≠
      .ok (.obj []) :=
  ⟨rfl, fun h => Except.noConfusion h⟩

/-- C4 (amended): on the refetch path, if the remote call fails with a
network/HTTP error, a body that fails JSON decoding, or a parsed JSON object
without status "ok" or without a "data" field, then the cache is not
mutated, the empty payload is returned, and no exception propagates; a
parsed body that is not a JSON object instead raises an uncaught
`AttributeError`. -/
theorem C4_refetch_failure_leaves_cache (lat lon token : String)
    (cache : List (String × JValue)) (now : Int) (outcome : FetchOutcome)
    (hre : reachesRefetch cache (mkKey lat lon) now)
    (hf : FailedOutcome outcome) :
    fetch_aqi_for_location lat lon token cache now outcome =
      { ret := .ok (.obj []), cache := cache, fetchCalls := 1 } := by
  rw [fetch_eq_refetch lat lon token cache now outcome hre]
  exact refetch_failure _ cache now outcome hf

/-- C4 witness: the spec scenario of an explicit error status body on a
missing key. -/
theorem C4_refetch_failure_leaves_cache_witness :
    fetch_aqi_for_location "48.7" "19.5" "tok" [] 1000
        (.body (.obj [("status", .str "error"), ("data", .str "Invalid key")])) =
      { ret := .ok (.obj []), cache := [], fetchCalls := 1 } :=
  C4_refetch_failure_leaves_cache "48.7" "19.5" "tok" [] 1000
    (.body (.obj [("status", .str "error"), ("data", .str "Invalid key")]))
    (Or.inl rfl)
    (FailedOutcome.badBody [("status", .str "error"), ("data", .str "Invalid key")]
      (by decide))

/-- C9: a parsed JSON object body with status "ok" but no "data" field takes
the failure branch on the refetch path: the cache is unchanged and the empty
payload is returned. -/
theorem C9_ok_status_without_data_is_failure (lat lon token : String)
    (cache : List (String × JValue)) (now : Int)
    (fields : List (String × JValue))
    (hre : reachesRefetch cache (mkKey lat lon) now)
    (hstat : lookupField fields "status" = some (.str "ok"))
    (hnd : lookupField fields "data" = none) :
    fetch_aqi_for_location lat lon token cache now (.body (.obj fields)) =
      { ret := .ok (.obj []), cache := cache, fetchCalls := 1 } := by
  rw [fetch_eq_refetch lat lon token cache now (.body (.obj fields)) hre]
  apply refetch_failure
  exact FailedOutcome.badBody fields (by simp [hnd])

/-- C9 witness: status "ok" with no data field on a missing key. -/
theorem C9_ok_status_without_data_is_failure_witness :
    fetch_aqi_for_location "48.7" "19.5" "tok" [] 1000
        (.body (.obj [("status", .str "ok")])) =
      { ret := .ok (.obj []), cache := [], fetchCalls := 1 } :=
  C9_ok_status_without_data_is_failure "48.7" "19.5" "tok" [] 1000
    [("status", .str "ok")] (Or.inl rfl) rfl rfl

/-- The spec's wording of the Current classification: a structured record
exposing both a timestamp field and a payload ("data") field. -/
def specIsCurrent (v : JValue) : Prop :=
  ∃ fields, v = .obj fields ∧
    (lookupField fields "timestamp").isSome = true ∧
    (lookupField fields "data").isSome = true

/-- The spec's wording of the Legacy classification in claim C5: the value
lacks both a timestamp field and a data field. -/
def lacksBothFields (v : JValue) : Prop :=
  v.hasKey "timestamp" = false ∧ v.hasKey "data" = false

/-- C5 counterexample: a dict carrying only a "timestamp" field is
classified Legacy by the code although it does not lack both fields, so
"Legacy exactly when it lacks both fields" is false. -/
theorem C5_counterexample_timestamp_only_dict :
    isCurrentEntry (.obj [("timestamp", .num 0)]) = false ∧
    ¬ lacksBothFields (.obj [("timestamp", .num 0)]) := by
  constructor
  · rfl
  · intro h
    exact Bool.false_ne_true (h.1.symm.trans (by rfl))

/-- C5 (amended): a stored value is classified Current exactly when it is a
dict exposing both a "timestamp" field and a "data" field, and Legacy
otherwise — so a dict holding only one of the two fields is Legacy.  The
classification is a pure function of the value's structure. -/
theorem C5_current_iff_both_fields (v : JValue) :
    isCurrentEntry v = true ↔ specIsCurrent v := by
  constructor
  · intro h
    cases v with
    | obj fields =>
        refine ⟨fields, rfl, ?_, ?_⟩
        · simp only [isCurrentEntry, JValue.isDict, JValue.hasKey,
            Bool.and_eq_true] at h
          exact h.1.2
        · simp only [isCurrentEntry, JValue.isDict, JValue.hasKey,
            Bool.and_eq_true] at h
          exact h.2
    | null => simp [isCurrentEntry, JValue.isDict] at h
    | bool b => simp [isCurrentEntry, JValue.isDict] at h
    | num n => simp [isCurrentEntry, JValue.isDict] at h
    | str s => simp [isCurrentEntry, JValue.isDict] at h
    | arr elems => simp [isCurrentEntry, JValue.isDict] at h
  · rintro ⟨fields, rfl, hts, hd⟩
    simp [isCurrentEntry, JValue.isDict, JValue.hasKey, hts, hd]

/-- C6: loading the cache from a missing file, or from a file whose contents
fail to decode as JSON, yields the empty cache, and neither case lets an
exception reach the caller. -/
theorem C6_load_fails_soft :
    load_cache .missing = .ok (.obj []) ∧
    load_cache .undecodable = .ok (.obj []) :=
  ⟨rfl, rfl⟩

/-- C7: saving any well-formed cache (a dict, so its keys are unique) and
then loading from the same file yields exactly the cache that was saved;
the empty cache is the `cache = []` instance. -/
theorem C7_save_load_round_trip (cache : List (String × JValue))
    (fs : FileState) (hwf : (cache.map Prod.fst).Nodup) :
    load_cache (save_cache cache true fs) = .ok (.obj cache) := by
  simp [save_cache, load_cache]

/-- C7 witness: a concrete one-entry cache over a previously missing file. -/
theorem C7_save_load_round_trip_witness :
    load_cache (save_cache [("48.7,19.5", .num 1)] true .missing) =
      .ok (.obj [("48.7,19.5", .num 1)]) :=
  C7_save_load_round_trip [("48.7,19.5", .num 1)] .missing (by simp)

/-- C8: however the processing body of `main` terminates — normal
completion, the early return on an empty location list, a
`KeyboardInterrupt` raised during the loop, or any other uncaught exception
— `save_cache` is invoked exactly once, with the in-memory cache exactly as
it stood at termination, and when the write succeeds the durable file holds
precisely that cache. -/
theorem C8_cache_saved_once_on_every_exit (c0 : List (String × JValue))
    (fs : FileState) (ev : BodyOutcome) (writeOk : Bool) :
    (main_run c0 fs ev writeOk).1.saves = [cacheAtTermination c0 ev] ∧
    (main_run c0 fs ev true).1.file =
      .content (.obj (cacheAtTermination c0 ev)) := by
  cases ev <;>
    simp [main_run, tryExceptKIFinally, runTryBody, runFinallyBlock,
      save_cache, cacheAtTermination]

/-- C10: one lookup touches at most its own key: every cache entry stored
under any other key reads the same before and after the call, on every path
(fresh hit, legacy migration, stale refetch, miss, and every failure
branch). -/
theorem C10_lookup_frames_other_keys (lat lon token : String)
    (cache : List (String × JValue)) (now : Int) (outcome : FetchOutcome)
    (k : String) (hk : k ≠ mkKey lat lon) :
    lookupField (fetch_aqi_for_location lat lon token cache now outcome).cache k =
      lookupField cache k := by
  simp only [fetch_aqi_for_location]
  cases hent : lookupField cache (mkKey lat lon) with
  | none =>
      exact refetch_frame (mkKey lat lon) cache now outcome k hk
  | some entry =>
      dsimp only
      by_cases hleg : isCurrentEntry entry = false
      · rw [if_pos hleg]
        exact lookupField_setField_ne cache (mkKey lat lon) k _ hk
      · rw [if_neg hleg]
        cases hts : (entry.dictGet "timestamp" (.num 0)).asPyNum with
        | none => rfl
        | some entry_ts =>
            dsimp only
            by_cases hfresh : now - entry_ts < CACHE_TTL_SECONDS
            · rw [if_pos hfresh]
              cases entry with
              | obj entryFields =>
                  dsimp only
                  cases lookupField entryFields "data" <;> rfl
              | null => rfl
              | bool b => rfl
              | num n => rfl
              | str s => rfl
              | arr elems => rfl
            · rw [if_neg hfresh]
              exact refetch_frame (mkKey lat lon) cache now outcome k hk

/-- C10 witness: a concrete two-entry cache where a legacy migration of one
key leaves the other key's entry unread and unchanged. -/
theorem C10_lookup_frames_other_keys_witness :
    lookupField (fetch_aqi_for_location "1.0" "2.0" "tok"
        [("9.0,9.0", .str "other"), ("1.0,2.0", .num 5)] 200 .requestError).cache
      "9.0,9.0" =
      lookupField [("9.0,9.0", .str "other"), ("1.0,2.0", .num 5)] "9.0,9.0" :=
  C10_lookup_frames_other_keys "1.0" "2.0" "tok"
    [("9.0,9.0", .str "other"), ("1.0,2.0", .num 5)] 200 .requestError
    "9.0,9.0" (by decide)

end AQIMap
